import Mathlib

/- Shallow embedding of src/gst-libs/mfx/gstmfxutils_vaapi.c (the VaapiImage
   wrapper) and of the GstMfxTaskType role flags from the accompanying task
   header.

   Pointers are modelled as Nat, with 0 standing for NULL; nullable function
   arguments are Option values.  The VA driver is an external collaborator
   specified at its call boundary: each driver entry point an operation may
   invoke is passed in as an explicit outcome parameter describing what the
   driver did (for vaMapBuffer, none for a non-success status and some p for
   success writing the base pointer p; for vaCreateImage, none for failure and
   some desc for success writing the descriptor desc; plain Bool for calls
   with no out parameter).  Every stateful operation additionally returns the
   ordered list of externally visible events it performs, so that lock
   bracketing, driver-call counts and teardown behaviour can be stated. -/

def VA_INVALID_ID : Nat := 4294967295

def VA_FOURCC_NV12 : Nat := 842094158

def VA_FOURCC_YV12 : Nat := 842094169

def GST_VIDEO_FORMAT_UNKNOWN : Nat := 0

def GST_VIDEO_FORMAT_YV12 : Nat := 3

def GST_VIDEO_FORMAT_NV12 : Nat := 23

/-- The VAImage descriptor of va.h: handles, format fourcc, geometry and the
plane layout (three-slot offset and pitch arrays) as filled in by the
driver. -/
structure VAImage where
  image_id : Nat
  buf : Nat
  fourcc : Nat
  width : Nat
  height : Nat
  data_size : Nat
  num_planes : Nat
  pitches : List Nat
  offsets : List Nat
deriving DecidableEq

/-- struct _VaapiImage: owning display reference, internal video format,
CPU-mapped base pointer (0 when unmapped), requested dimensions, and the
embedded VAImage descriptor. -/
structure VaapiImage where
  display : Nat
  internal_format : Nat
  image_data : Nat
  width : Nat
  height : Nat
  image : VAImage
deriving DecidableEq

/-- Externally visible events of an operation, in program order: display lock
acquire and release, the four driver calls, the teardown warning, and the
release of the display reference. -/
inductive Ev where
  | lock
  | unlock
  | mapCall
  | unmapCall
  | createCall
  | destroyCall
  | warn
  | displayUnref
deriving DecidableEq, BEq

/-- The all-zero VAImage produced by zeroed allocation. -/
def zeroVAImage : VAImage :=
  { image_id := 0, buf := 0, fourcc := 0, width := 0, height := 0,
    data_size := 0, num_planes := 0, pitches := [0, 0, 0], offsets := [0, 0, 0] }

/-- gst_mfx_mini_object_new0 for the VaapiImage class followed by the display
assignment: zeroed storage with the display pointer recorded. -/
def vaapi_image_alloc0 (display : Nat) : VaapiImage :=
  { display := display, internal_format := 0, image_data := 0, width := 0,
    height := 0, image := zeroVAImage }

def _vaapi_image_is_mapped (image : VaapiImage) : Bool :=
  decide (image.image_data ≠ 0)

/-- _vaapi_image_map: already mapped returns TRUE at once; otherwise issues
vaMapBuffer under the display lock, returning FALSE on a non-success status
(the out pointer is only written by a successful call). -/
def _vaapi_image_map (image : VaapiImage) (dmap : Option Nat) :
    Bool × VaapiImage × List Ev :=
  if _vaapi_image_is_mapped image then
    (true, image, [])
  else
    match dmap with
    | some p =>
        (true, { image with image_data := p }, [Ev.lock, Ev.mapCall, Ev.unlock])
    | none => (false, image, [Ev.lock, Ev.mapCall, Ev.unlock])

/-- _vaapi_image_unmap: not mapped returns TRUE at once; otherwise issues
vaUnmapBuffer under the display lock, returning FALSE without clearing
image_data on a non-success status, and clearing it on success. -/
def _vaapi_image_unmap (image : VaapiImage) (dunmap : Bool) :
    Bool × VaapiImage × List Ev :=
  if _vaapi_image_is_mapped image then
    if dunmap then
      (true, { image with image_data := 0 }, [Ev.lock, Ev.unmapCall, Ev.unlock])
    else
      (false, image, [Ev.lock, Ev.unmapCall, Ev.unlock])
  else
    (true, image, [])

def vaapi_image_get_id : Option VaapiImage → Nat
  | none => VA_INVALID_ID
  | some image => image.image.image_id

/-- vaapi_image_finalize: unmap (result ignored), then, when the image id is
valid, vaDestroyImage under the display lock with a warning on driver
failure, and finally the display unref. -/
def vaapi_image_finalize (image : VaapiImage) (dunmap ddestroy : Bool) :
    List Ev :=
  let r := _vaapi_image_unmap image dunmap
  let image_id := vaapi_image_get_id (some r.2.1)
  r.2.2 ++
    (if image_id ≠ VA_INVALID_ID then
       [Ev.lock, Ev.destroyCall, Ev.unlock] ++
         (if ddestroy then [] else [Ev.warn])
     else []) ++
    [Ev.displayUnref]

/-- vaapi_image_create: vaCreateImage under the display lock with the fixed
NV12 format; on success the driver writes the descriptor and the function
records format NV12 and the requested width and height. -/
def vaapi_image_create (image : VaapiImage) (width height : Nat)
    (dcreate : Option VAImage) : Bool × VaapiImage × List Ev :=
  match dcreate with
  | none => (false, image, [Ev.lock, Ev.createCall, Ev.unlock])
  | some desc =>
      (true,
       { image with
           image := desc,
           internal_format := GST_VIDEO_FORMAT_NV12,
           width := width,
           height := height },
       [Ev.lock, Ev.createCall, Ev.unlock])

/-- vaapi_image_new: argument checks, zeroed allocation, invalid-sentinel
initialisation of the image id and buffer handles, then vaapi_image_create;
on create failure the single fresh reference is dropped, running
vaapi_image_finalize on the partially built object. -/
def vaapi_image_new (display width height : Nat) (alloc_ok : Bool)
    (dcreate : Option VAImage) (dunmap ddestroy : Bool) :
    Option VaapiImage × List Ev :=
  if width = 0 then (none, [])
  else if height = 0 then (none, [])
  else if display = 0 then (none, [])
  else if alloc_ok = false then (none, [])
  else
    let image0 : VaapiImage :=
      { vaapi_image_alloc0 display with
        image := { zeroVAImage with
                   image_id := VA_INVALID_ID, buf := VA_INVALID_ID } }
    let r := vaapi_image_create image0 width height dcreate
    if r.1 then (some r.2.1, r.2.2)
    else (none, r.2.2 ++ vaapi_image_finalize r.2.1 dunmap ddestroy)

/-- _vaapi_image_set_image: copies the foreign descriptor wholesale, takes
the descriptor width and height, and sets the internal format to the fixed
NV12 value; always returns TRUE. -/
def _vaapi_image_set_image (image : VaapiImage) (va_image : VAImage) :
    Bool × VaapiImage :=
  (true,
   { image with
       internal_format := GST_VIDEO_FORMAT_NV12,
       image := va_image,
       width := va_image.width,
       height := va_image.height })

/-- vaapi_image_new_with_image: requires a non-null descriptor with valid
image and buffer handles, allocates zeroed storage and adopts the descriptor
via _vaapi_image_set_image. -/
def vaapi_image_new_with_image (display : Nat) (va_image : Option VAImage)
    (alloc_ok : Bool) : Option VaapiImage :=
  match va_image with
  | none => none
  | some v =>
      if v.image_id = VA_INVALID_ID then none
      else if v.buf = VA_INVALID_ID then none
      else if alloc_ok = false then none
      else some (_vaapi_image_set_image (vaapi_image_alloc0 display) v).2

def vaapi_image_get_image : Option VaapiImage → Bool → Bool × Option VAImage
  | none, _ => (false, none)
  | some image, out_nonnull =>
      if out_nonnull then (true, some image.image) else (true, none)

def vaapi_image_get_format : Option VaapiImage → Nat
  | none => 0
  | some image => image.internal_format

def vaapi_image_get_width : Option VaapiImage → Nat
  | none => 0
  | some image => image.width

def vaapi_image_get_height : Option VaapiImage → Nat
  | none => 0
  | some image => image.height

def vaapi_image_is_mapped : Option VaapiImage → Bool
  | none => false
  | some image => _vaapi_image_is_mapped image

def vaapi_image_map : Option VaapiImage → Option Nat →
    Bool × Option VaapiImage × List Ev
  | none, _ => (false, none, [])
  | some image, dmap =>
      let r := _vaapi_image_map image dmap
      (r.1, some r.2.1, r.2.2)

def vaapi_image_unmap : Option VaapiImage → Bool →
    Bool × Option VaapiImage × List Ev
  | none, _ => (false, none, [])
  | some image, dunmap =>
      let r := _vaapi_image_unmap image dunmap
      (r.1, some r.2.1, r.2.2)

def vaapi_image_get_plane_count : Option VaapiImage → Nat
  | none => 0
  | some image => image.image.num_planes

def vaapi_image_get_plane : Option VaapiImage → Nat → Nat
  | none, _ => 0
  | some image, plane =>
      if _vaapi_image_is_mapped image then
        if plane < image.image.num_planes then
          image.image_data + image.image.offsets.getD plane 0
        else 0
      else 0

def vaapi_image_get_pitch : Option VaapiImage → Nat → Nat
  | none, _ => 0
  | some image, plane =>
      if plane < image.image.num_planes then image.image.pitches.getD plane 0
      else 0

def vaapi_image_get_data_size : Option VaapiImage → Nat
  | none => 0
  | some image => image.image.data_size

def vaapi_image_get_offset : Option VaapiImage → Nat → Nat
  | none, _ => 0
  | some image, plane =>
      if plane < image.image.num_planes then image.image.offsets.getD plane 0
      else 0

def GST_MFX_TASK_INVALID : Nat := 0

def GST_MFX_TASK_DECODER : Nat := 1

def GST_MFX_TASK_VPP_IN : Nat := 2

def GST_MFX_TASK_VPP_OUT : Nat := 4

def GST_MFX_TASK_ENCODER : Nat := 8

/-- Bitmask union of a subset of the four task roles, built with bitwise or
from the GstMfxTaskType flag values. -/
def taskRoleMask (d vi vo e : Bool) : Nat :=
  Nat.lor (if d then GST_MFX_TASK_DECODER else 0)
    (Nat.lor (if vi then GST_MFX_TASK_VPP_IN else 0)
      (Nat.lor (if vo then GST_MFX_TASK_VPP_OUT else 0)
        (if e then GST_MFX_TASK_ENCODER else 0)))

/-- Reading of the spec words for claim C1, to be compared with the source
behaviour: the format of a foreign descriptor, as a GstVideoFormat value,
under the standard fourcc correspondence for the formats appearing here. -/
def descriptor_gst_format (va_image : VAImage) : Nat :=
  if va_image.fourcc = VA_FOURCC_NV12 then GST_VIDEO_FORMAT_NV12
  else if va_image.fourcc = VA_FOURCC_YV12 then GST_VIDEO_FORMAT_YV12
  else GST_VIDEO_FORMAT_UNKNOWN

/-- Number of driver map calls recorded in an event trace. -/
def mapCallCount (tr : List Ev) : Nat :=
  tr.count Ev.mapCall

/-- A concrete NV12 descriptor with valid handles. -/
def descNV12 : VAImage :=
  { image_id := 7, buf := 9, fourcc := VA_FOURCC_NV12, width := 64,
    height := 32, data_size := 3072, num_planes := 2, pitches := [64, 64, 0],
    offsets := [0, 2048, 0] }

/-- A concrete YV12 descriptor with valid handles. -/
def descYV12 : VAImage :=
  { descNV12 with
    fourcc := VA_FOURCC_YV12, num_planes := 3,
    pitches := [64, 32, 32], offsets := [0, 2048, 2560] }

/-- A concrete unmapped image wrapping descNV12. -/
def imgUnmapped : VaapiImage :=
  { display := 3, internal_format := GST_VIDEO_FORMAT_NV12, image_data := 0,
    width := 64, height := 32, image := descNV12 }

/-- The same image with a CPU mapping recorded. -/
def imgMapped : VaapiImage :=
  { imgUnmapped with image_data := 4096 }

theorem unmap_preserves_image (image : VaapiImage) (dunmap : Bool) :
    (_vaapi_image_unmap image dunmap).2.1.image = image.image := by
  unfold _vaapi_image_unmap
  split
  · split <;> rfl
  · rfl

theorem unmap_trace_shape (image : VaapiImage) (dunmap : Bool) :
    (_vaapi_image_unmap image dunmap).2.2 = [] ∨
    (_vaapi_image_unmap image dunmap).2.2 =
      [Ev.lock, Ev.unmapCall, Ev.unlock] := by
  unfold _vaapi_image_unmap
  split
  · split
    · exact Or.inr rfl
    · exact Or.inr rfl
  · exact Or.inl rfl

theorem finalize_eq_of_valid (image : VaapiImage) (dunmap ddestroy : Bool)
    (h : image.image.image_id ≠ VA_INVALID_ID) :
    vaapi_image_finalize image dunmap ddestroy =
      (_vaapi_image_unmap image dunmap).2.2 ++
        ([Ev.lock, Ev.destroyCall, Ev.unlock] ++
          (if ddestroy then [] else [Ev.warn])) ++
        [Ev.displayUnref] := by
  unfold vaapi_image_finalize
  simp only [vaapi_image_get_id, unmap_preserves_image]
  rw [if_pos h]

theorem finalize_eq_of_invalid (image : VaapiImage) (dunmap ddestroy : Bool)
    (h : image.image.image_id = VA_INVALID_ID) :
    vaapi_image_finalize image dunmap ddestroy =
      (_vaapi_image_unmap image dunmap).2.2 ++ [Ev.displayUnref] := by
  unfold vaapi_image_finalize
  simp only [vaapi_image_get_id, unmap_preserves_image]
  rw [if_neg (by simp [h])]
  simp

/-- Claim C8: every public VaapiImage query called with a null image argument
returns its safe sentinel default: get_id returns VA_INVALID_ID; get_format,
get_width, get_height, get_pitch, get_offset, get_data_size and
get_plane_count return 0; get_plane returns the null pointer; is_mapped, map,
unmap and get_image return false. -/
theorem claim_C8 :
    vaapi_image_get_id none = VA_INVALID_ID ∧
    vaapi_image_get_format none = 0 ∧
    vaapi_image_get_width none = 0 ∧
    vaapi_image_get_height none = 0 ∧
    (∀ plane, vaapi_image_get_pitch none plane = 0) ∧
    (∀ plane, vaapi_image_get_offset none plane = 0) ∧
    vaapi_image_get_data_size none = 0 ∧
    vaapi_image_get_plane_count none = 0 ∧
    (∀ plane, vaapi_image_get_plane none plane = 0) ∧
    vaapi_image_is_mapped none = false ∧
    (∀ dmap, (vaapi_image_map none dmap).1 = false) ∧
    (∀ dunmap, (vaapi_image_unmap none dunmap).1 = false) ∧
    (∀ out_nonnull, (vaapi_image_get_image none out_nonnull).1 = false) :=
  ⟨rfl, rfl, rfl, rfl, fun _ => rfl, fun _ => rfl, rfl, rfl, fun _ => rfl,
   rfl, fun _ => rfl, fun _ => rfl, fun _ => rfl⟩

/-- Claim C9: for every non-null image, get_image returns true in both output
modes: with a non-null out pointer it copies the internal VA image descriptor
into it; with a null out pointer it succeeds and writes nothing. -/
theorem claim_C9 (image : VaapiImage) :
    vaapi_image_get_image (some image) true = (true, some image.image) ∧
    vaapi_image_get_image (some image) false = (true, none) :=
  ⟨rfl, rfl⟩

/-- Claim C10: the four GstMfxTaskType role flags are the pairwise-distinct
single-bit values 1, 2, 4, 8 and the invalid role is 0, so any subset of the
four roles has a unique bitmask representation and the union of a non-empty
subset of roles is distinct from the invalid value. -/
theorem claim_C10 :
    GST_MFX_TASK_INVALID = 0 ∧
    GST_MFX_TASK_DECODER = 2 ^ 0 ∧
    GST_MFX_TASK_VPP_IN = 2 ^ 1 ∧
    GST_MFX_TASK_VPP_OUT = 2 ^ 2 ∧
    GST_MFX_TASK_ENCODER = 2 ^ 3 ∧
    (∀ d1 vi1 vo1 e1 d2 vi2 vo2 e2 : Bool,
      taskRoleMask d1 vi1 vo1 e1 = taskRoleMask d2 vi2 vo2 e2 →
      d1 = d2 ∧ vi1 = vi2 ∧ vo1 = vo2 ∧ e1 = e2) ∧
    (∀ d vi vo e : Bool, (d || vi || vo || e) = true →
      taskRoleMask d vi vo e ≠ GST_MFX_TASK_INVALID) := by
  decide

/-- Claim C1 as stated is false: adopting the valid foreign YV12 descriptor
descYV12 yields an image whose get_format is the fixed NV12 value, not the
format of the descriptor. -/
theorem claim_C1_counterexample :
    descYV12.image_id ≠ VA_INVALID_ID ∧ descYV12.buf ≠ VA_INVALID_ID ∧
    vaapi_image_get_format (vaapi_image_new_with_image 3 (some descYV12) true)
      ≠ descriptor_gst_format descYV12 := by
  decide

/-- Claim C1 (amended): for every Image created by adopting a foreign
descriptor with valid image and buffer handles, geometry and plane layout
are taken directly from the descriptor (get_width and get_height return the
descriptor width and height, and the whole descriptor is adopted), while the
pixel format is set to the fixed NV12 value regardless of the descriptor
format. -/
theorem claim_C1 (display : Nat) (v : VAImage)
    (h1 : v.image_id ≠ VA_INVALID_ID) (h2 : v.buf ≠ VA_INVALID_ID) :
    ∃ image,
      vaapi_image_new_with_image display (some v) true = some image ∧
      vaapi_image_get_format (some image) = GST_VIDEO_FORMAT_NV12 ∧
      vaapi_image_get_width (some image) = v.width ∧
      vaapi_image_get_height (some image) = v.height ∧
      image.image = v := by
  refine ⟨(_vaapi_image_set_image (vaapi_image_alloc0 display) v).2,
          ?_, rfl, rfl, rfl, rfl⟩
  simp [vaapi_image_new_with_image, h1, h2]

theorem claim_C1_witness :
    ∃ image,
      vaapi_image_new_with_image 3 (some descNV12) true = some image ∧
      vaapi_image_get_format (some image) = GST_VIDEO_FORMAT_NV12 ∧
      vaapi_image_get_width (some image) = descNV12.width ∧
      vaapi_image_get_height (some image) = descNV12.height ∧
      image.image = descNV12 :=
  claim_C1 3 descNV12 (by decide) (by decide)

/-- Claim C2: map and unmap are atomic on driver failure: a failing driver
map call makes map return false and leaves the image unmapped with a null
mapped pointer, and a failing driver unmap call makes unmap return false and
leaves the image mapped with its mapped pointer intact. -/
theorem claim_C2 (image : VaapiImage) :
    (_vaapi_image_is_mapped image = false →
      (_vaapi_image_map image none).1 = false ∧
      (_vaapi_image_map image none).2.1 = image ∧
      _vaapi_image_is_mapped (_vaapi_image_map image none).2.1 = false ∧
      (_vaapi_image_map image none).2.1.image_data = 0) ∧
    (_vaapi_image_is_mapped image = true →
      (_vaapi_image_unmap image false).1 = false ∧
      (_vaapi_image_unmap image false).2.1 = image ∧
      _vaapi_image_is_mapped (_vaapi_image_unmap image false).2.1 = true ∧
      (_vaapi_image_unmap image false).2.1.image_data = image.image_data) := by
  constructor
  · intro h
    have hd : image.image_data = 0 := not_ne_iff.mp (of_decide_eq_false h)
    simp [_vaapi_image_map, h, _vaapi_image_is_mapped, hd]
  · intro h
    simp [_vaapi_image_unmap, h]

theorem claim_C2_witness :
    ((_vaapi_image_map imgUnmapped none).1 = false ∧
     (_vaapi_image_map imgUnmapped none).2.1.image_data = 0) ∧
    ((_vaapi_image_unmap imgMapped false).1 = false ∧
     (_vaapi_image_unmap imgMapped false).2.1.image_data =
       imgMapped.image_data) :=
  ⟨⟨((claim_C2 imgUnmapped).1 (by decide)).1,
    ((claim_C2 imgUnmapped).1 (by decide)).2.2.2⟩,
   ⟨((claim_C2 imgMapped).2 (by decide)).1,
    ((claim_C2 imgMapped).2 (by decide)).2.2.2⟩⟩

/-- Claim C3 as stated is false at a concrete input: on the unmapped image
imgUnmapped, when the first driver map attempt fails, a second map issues a
second driver map call, so two consecutive maps issue two driver map calls,
not at most one. -/
theorem claim_C3_counterexample :
    ¬ (mapCallCount
        ((_vaapi_image_map imgUnmapped none).2.2 ++
          (_vaapi_image_map (_vaapi_image_map imgUnmapped none).2.1
            none).2.2) ≤ 1) := by
  decide

/-- Claim C3 (amended): map on an already-mapped image succeeds immediately
with no driver call, and unmap on an unmapped image succeeds immediately
with no driver call; consequently two consecutive maps issue at most one
driver map call provided the driver map call, when issued, succeeds with a
non-null base pointer (after a failed map the image stays unmapped, so a
retry issues a further driver call). -/
theorem claim_C3 (image : VaapiImage) (dmap : Option Nat) (dunmap : Bool) :
    (_vaapi_image_is_mapped image = true →
      _vaapi_image_map image dmap = (true, image, [])) ∧
    (_vaapi_image_is_mapped image = false →
      _vaapi_image_unmap image dunmap = (true, image, [])) ∧
    (∀ p : Nat, p ≠ 0 →
      mapCallCount
          ((_vaapi_image_map image (some p)).2.2 ++
            (_vaapi_image_map (_vaapi_image_map image (some p)).2.1
              dmap).2.2) ≤ 1) := by
  refine ⟨fun h => ?_, fun h => ?_, fun p hp => ?_⟩
  · simp [_vaapi_image_map, h]
  · simp [_vaapi_image_unmap, h]
  · by_cases h : _vaapi_image_is_mapped image = true
    · simp [_vaapi_image_map, h, mapCallCount]
    · have h' : _vaapi_image_is_mapped image = false :=
        Bool.not_eq_true _ ▸ eq_false_of_ne_true h
      have h2 : _vaapi_image_is_mapped
          { image with image_data := p } = true := by
        simp [_vaapi_image_is_mapped, hp]
      simp [_vaapi_image_map, h', h2, mapCallCount, List.count_cons]
      decide

theorem claim_C3_witness :
    (_vaapi_image_map imgMapped none = (true, imgMapped, []) ∧
     _vaapi_image_unmap imgUnmapped true = (true, imgUnmapped, [])) ∧
    mapCallCount
        ((_vaapi_image_map imgUnmapped (some 4096)).2.2 ++
          (_vaapi_image_map (_vaapi_image_map imgUnmapped (some 4096)).2.1
            none).2.2) ≤ 1 :=
  ⟨⟨(claim_C3 imgMapped none true).1 (by decide),
    (claim_C3 imgUnmapped none true).2.1 (by decide)⟩,
   (claim_C3 imgUnmapped none true).2.2 4096 (by decide)⟩

/-- Claim C4: for width and height positive and a non-null display,
vaapi_image_new either returns no object or returns an image whose get_width
and get_height are the requested dimensions and whose plane count is
positive, assuming the driver contract that a successful vaCreateImage
writes a descriptor with at least one plane; a returned image is never
mapped. -/
theorem claim_C4 (display width height : Nat) (alloc_ok : Bool)
    (dcreate : Option VAImage) (dunmap ddestroy : Bool)
    (hw : 0 < width) (hh : 0 < height) (hd : display ≠ 0)
    (hdrv : ∀ desc, dcreate = some desc → 0 < desc.num_planes) :
    (vaapi_image_new display width height alloc_ok dcreate
        dunmap ddestroy).1 = none ∨
    ∃ image,
      (vaapi_image_new display width height alloc_ok dcreate
          dunmap ddestroy).1 = some image ∧
      vaapi_image_get_width (some image) = width ∧
      vaapi_image_get_height (some image) = height ∧
      0 < vaapi_image_get_plane_count (some image) ∧
      image.image_data = 0 := by
  have hw0 : width ≠ 0 := Nat.pos_iff_ne_zero.mp hw
  have hh0 : height ≠ 0 := Nat.pos_iff_ne_zero.mp hh
  cases alloc_ok with
  | false => exact Or.inl (by simp [vaapi_image_new, hw0, hh0, hd])
  | true =>
    cases dcreate with
    | none =>
        exact Or.inl (by simp [vaapi_image_new, vaapi_image_create, hw0, hh0, hd])
    | some desc =>
        refine Or.inr
          ⟨{ vaapi_image_alloc0 display with
             image := desc,
             internal_format := GST_VIDEO_FORMAT_NV12,
             width := width, height := height },
           ?_, rfl, rfl, hdrv desc rfl, rfl⟩
        simp [vaapi_image_new, vaapi_image_create, hw0, hh0, hd]

theorem claim_C4_witness :
    (vaapi_image_new 1 64 32 true (some descNV12) true true).1 = none ∨
    ∃ image,
      (vaapi_image_new 1 64 32 true (some descNV12) true true).1 =
        some image ∧
      vaapi_image_get_width (some image) = 64 ∧
      vaapi_image_get_height (some image) = 32 ∧
      0 < vaapi_image_get_plane_count (some image) ∧
      image.image_data = 0 :=
  claim_C4 1 64 32 true (some descNV12) true true (by decide) (by decide)
    (by decide) (by intro desc hdesc; cases hdesc; decide)

/-- Claim C5: when hardware buffer creation fails inside vaapi_image_new the
partially built image is torn down via the same vaapi_image_finalize routine
as a complete image, and finalize on an image whose image id is the invalid
sentinel issues no driver destroy call yet still releases the display
reference. -/
theorem claim_C5 (display width height : Nat) (dunmap ddestroy : Bool)
    (hw : 0 < width) (hh : 0 < height) (hd : display ≠ 0) :
    ((vaapi_image_new display width height true none dunmap ddestroy).1 =
        none ∧
     (vaapi_image_new display width height true none dunmap ddestroy).2 =
       [Ev.lock, Ev.createCall, Ev.unlock] ++
         vaapi_image_finalize
           { vaapi_image_alloc0 display with
             image := { zeroVAImage with
                        image_id := VA_INVALID_ID, buf := VA_INVALID_ID } }
           dunmap ddestroy) ∧
    (∀ image : VaapiImage, image.image.image_id = VA_INVALID_ID →
      Ev.destroyCall ∉ vaapi_image_finalize image dunmap ddestroy ∧
      Ev.displayUnref ∈ vaapi_image_finalize image dunmap ddestroy) := by
  have hw0 : width ≠ 0 := Nat.pos_iff_ne_zero.mp hw
  have hh0 : height ≠ 0 := Nat.pos_iff_ne_zero.mp hh
  refine ⟨⟨?_, ?_⟩, fun image h => ?_⟩
  · simp [vaapi_image_new, vaapi_image_create, hw0, hh0, hd]
  · simp [vaapi_image_new, vaapi_image_create, hw0, hh0, hd]
  · rw [finalize_eq_of_invalid image dunmap ddestroy h]
    rcases unmap_trace_shape image dunmap with ht | ht <;> rw [ht] <;> simp

theorem claim_C5_witness :
    ((vaapi_image_new 1 2 2 true none true false).1 = none ∧
     (vaapi_image_new 1 2 2 true none true false).2 =
       [Ev.lock, Ev.createCall, Ev.unlock] ++
         vaapi_image_finalize
           { vaapi_image_alloc0 1 with
             image := { zeroVAImage with
                        image_id := VA_INVALID_ID, buf := VA_INVALID_ID } }
           true false) ∧
    (Ev.destroyCall ∉
        vaapi_image_finalize
          { vaapi_image_alloc0 1 with
            image := { zeroVAImage with
                       image_id := VA_INVALID_ID, buf := VA_INVALID_ID } }
          true false ∧
     Ev.displayUnref ∈
        vaapi_image_finalize
          { vaapi_image_alloc0 1 with
            image := { zeroVAImage with
                       image_id := VA_INVALID_ID, buf := VA_INVALID_ID } }
          true false) :=
  ⟨(claim_C5 1 2 2 true false (by decide) (by decide) (by decide)).1,
   (claim_C5 1 2 2 true false (by decide) (by decide) (by decide)).2
     { vaapi_image_alloc0 1 with
       image := { zeroVAImage with
                  image_id := VA_INVALID_ID, buf := VA_INVALID_ID } }
     (by decide)⟩

/-- Claim C6: get_plane on a non-null image returns exactly the mapped base
pointer plus the offset of the requested plane when the image is mapped and
the index is within the plane count, and returns the null pointer whenever
the image is unmapped or the index is out of range. -/
theorem claim_C6 (image : VaapiImage) (plane : Nat) :
    (_vaapi_image_is_mapped image = true → plane < image.image.num_planes →
      vaapi_image_get_plane (some image) plane =
        image.image_data + image.image.offsets.getD plane 0) ∧
    (_vaapi_image_is_mapped image = false →
      vaapi_image_get_plane (some image) plane = 0) ∧
    (image.image.num_planes ≤ plane →
      vaapi_image_get_plane (some image) plane = 0) := by
  refine ⟨fun h1 h2 => ?_, fun h => ?_, fun h => ?_⟩
  · simp [vaapi_image_get_plane, h1, h2]
  · simp [vaapi_image_get_plane, h]
  · have h' : ¬ plane < image.image.num_planes := Nat.not_lt.mpr h
    simp [vaapi_image_get_plane, h']

theorem claim_C6_witness :
    (vaapi_image_get_plane (some imgMapped) 1 =
      imgMapped.image_data + imgMapped.image.offsets.getD 1 0) ∧
    vaapi_image_get_plane (some imgUnmapped) 1 = 0 ∧
    vaapi_image_get_plane (some imgMapped) 2 = 0 :=
  ⟨(claim_C6 imgMapped 1).1 (by decide) (by decide),
   (claim_C6 imgUnmapped 1).2.1 (by decide),
   (claim_C6 imgMapped 2).2.2 (by decide)⟩

/-- Claim C7: on destruction, every image whose image id is valid, including
one adopted from a foreign descriptor, has its hardware buffer destroyed
under the display lock; a driver failure during the destroy produces a
warning but the display reference is still released; and adoption transfers
the foreign descriptor id into the image so that the finalize destroy
applies to it. -/
theorem claim_C7 :
    (∀ (image : VaapiImage) (dunmap ddestroy : Bool),
        image.image.image_id ≠ VA_INVALID_ID →
        (∃ pre post,
          vaapi_image_finalize image dunmap ddestroy =
            pre ++ [Ev.lock, Ev.destroyCall, Ev.unlock] ++ post) ∧
        Ev.displayUnref ∈ vaapi_image_finalize image dunmap ddestroy ∧
        (ddestroy = false →
          Ev.warn ∈ vaapi_image_finalize image dunmap ddestroy)) ∧
    (∀ (display : Nat) (v : VAImage),
        v.image_id ≠ VA_INVALID_ID → v.buf ≠ VA_INVALID_ID →
        ∃ image,
          vaapi_image_new_with_image display (some v) true = some image ∧
          image.image.image_id = v.image_id) := by
  constructor
  · intro image dunmap ddestroy h
    rw [finalize_eq_of_valid image dunmap ddestroy h]
    refine ⟨⟨(_vaapi_image_unmap image dunmap).2.2,
             (if ddestroy then [] else [Ev.warn]) ++ [Ev.displayUnref],
             by simp⟩, by simp, fun hdd => ?_⟩
    simp [hdd]
  · intro display v h1 h2
    exact ⟨(_vaapi_image_set_image (vaapi_image_alloc0 display) v).2,
           by simp [vaapi_image_new_with_image, h1, h2], rfl⟩

theorem claim_C7_witness :
    ((∃ pre post,
        vaapi_image_finalize imgMapped true false =
          pre ++ [Ev.lock, Ev.destroyCall, Ev.unlock] ++ post) ∧
     Ev.displayUnref ∈ vaapi_image_finalize imgMapped true false ∧
     Ev.warn ∈ vaapi_image_finalize imgMapped true false) ∧
    ∃ image,
      vaapi_image_new_with_image 3 (some descNV12) true = some image ∧
      image.image.image_id = descNV12.image_id :=
  ⟨⟨(claim_C7.1 imgMapped true false (by decide)).1,
    (claim_C7.1 imgMapped true false (by decide)).2.1,
    (claim_C7.1 imgMapped true false (by decide)).2.2 rfl⟩,
   claim_C7.2 3 descNV12 (by decide) (by decide)⟩
